import Mathlib

/-!
Verification of the request-authorization and error-normalization core of
n9-node-routing, shallowly embedded from:
  - src/start-express-app.ts  (the `authorizationChecker` session gate and the
    routing-controller option merge), and
  - src/middleware/error-handler.interceptor.ts (the `ErrorHandler` interceptor).

JavaScript values reachable in this core are modelled by `JsValue`.  Numbers
are modelled as exact decimals (mantissa and power-of-ten exponent); the
IEEE-754 rounding performed by a JS engine is not modelled, which is faithful
for every status code and every numeral appearing in this development.
-/

mutual
inductive JsValue : Type where
  | undefined
  | null
  | bool (b : Bool)
  | num (m : Int) (e10 : Int)
  | str (s : String)
  | arr (elems : JsArr)
  | obj (fields : JsObj)
  deriving DecidableEq, Repr
inductive JsArr : Type where
  | nil
  | cons (hd : JsValue) (tl : JsArr)
  deriving DecidableEq, Repr
inductive JsObj : Type where
  | nil
  | cons (key : String) (val : JsValue) (tl : JsObj)
  deriving DecidableEq, Repr
end

/-- Truthiness of a JavaScript value, as used by `if (x)`, `!x`, `x || y`.
Falsy values: `undefined`, `null`, `false`, `0`, `""`.  (NaN, the remaining
falsy value, is not representable as a `JsValue`.) -/
def truthy : JsValue → Bool
  | .undefined => false
  | .null => false
  | .bool b => b
  | .num m _ => m != 0
  | .str s => s != ""
  | .arr _ => true
  | .obj _ => true

/-- JavaScript `x || y`. -/
def jsOr (a b : JsValue) : JsValue := if truthy a then a else b

/-- Whether a value is `undefined` or `null` (member access on it throws). -/
def nullish : JsValue → Bool
  | .undefined => true
  | .null => true
  | _ => false

/-- Lookup of a key in an object's field list.  Later bindings shadow earlier
ones, matching the way `JSON.parse` handles duplicate keys. -/
def JsObj.getProp : JsObj → String → Option JsValue
  | .nil, _ => none
  | .cons k v tl, key =>
    match JsObj.getProp tl key with
    | some w => some w
    | none => if k == key then some v else none

/-- Own-property read `v[key]` for a non-nullish `v`, for the keys this
program reads (`userId`, `status`, `httpCode`, `name`, `message`, `context`,
`errors`).  Primitives and arrays have no own property under any of those
keys, so the read yields `undefined`; prototype-chain properties are not
modelled because none of those keys names one.  Member access on a nullish
value throws in JS; callers of this function check `nullish` first. -/
def jsGet : JsValue → String → JsValue
  | .obj fields, key => (JsObj.getProp fields key).getD .undefined
  | _, _ => .undefined

/-- Whether an object value declares (owns) the given field. -/
def hasProp : JsValue → String → Bool
  | .obj fields, key => (JsObj.getProp fields key).isSome
  | _, _ => false

/-! ### JSON.parse

A parser for the JSON grammar accepted by `JSON.parse` (ECMA-404 texts with
`space`, `tab`, `\n`, `\r` whitespace).  It returns `none` exactly where
`JSON.parse` throws a `SyntaxError`.  Recursion is bounded by a fuel value;
`jsonParse` supplies fuel ample for its input (see the comment there). -/

/-- JSON whitespace characters. -/
def isJsonWs (c : Char) : Bool := c == ' ' || c == '\t' || c == '\n' || c == '\r'

/-- Drop leading JSON whitespace. -/
def skipWs : List Char → List Char
  | [] => []
  | c :: cs => if isJsonWs c then skipWs cs else c :: cs

/-- Accumulate decimal digits into a natural number. -/
def digitsToNat (acc : Nat) : List Char → Nat
  | [] => acc
  | c :: cs => digitsToNat (acc * 10 + (c.toNat - '0'.toNat)) cs

/-- Split a list into its leading run of decimal digits and the rest. -/
def spanDigits : List Char → List Char × List Char
  | [] => ([], [])
  | c :: cs =>
    if c.isDigit then
      let (ds, r) := spanDigits cs
      (c :: ds, r)
    else ([], c :: cs)

/-- Optional exponent part of a JSON number. -/
def parseExponentPart (m : Int) (e : Int) (cs : List Char) :
    Option ((Int × Int) × List Char) :=
  match cs with
  | c :: r =>
    if c == 'e' || c == 'E' then
      let (esign, r1) : Bool × List Char :=
        match r with
        | '+' :: r2 => (false, r2)
        | '-' :: r2 => (true, r2)
        | _ => (false, r)
      match r1 with
      | d :: _ =>
        if d.isDigit then
          let (ds, r2) := spanDigits r1
          let ev : Int := digitsToNat 0 ds
          some ((m, e + (if esign then -ev else ev)), r2)
        else none
      | [] => none
    else some ((m, e), cs)
  | [] => some ((m, e), [])

/-- Optional fraction part of a JSON number: extends the mantissa and counts
the fraction digits. -/
def parseFracPart (m : Nat) (cs : List Char) : Option ((Nat × Nat) × List Char) :=
  match cs with
  | '.' :: r =>
    match r with
    | d :: _ =>
      if d.isDigit then
        let (ds, r2) := spanDigits r
        some ((digitsToNat m ds, ds.length), r2)
      else none
    | [] => none
  | _ => some ((m, 0), cs)

/-- Fraction and exponent after the integer part of a JSON number. -/
def parseNumberTail (neg : Bool) (intPart : Nat) (cs : List Char) :
    Option ((Int × Int) × List Char) :=
  match parseFracPart intPart cs with
  | some ((m, fl), r) =>
    let mz : Int := if neg then -(m : Int) else (m : Int)
    parseExponentPart mz (-(fl : Int)) r
  | none => none

/-- Parse a JSON number token: `-? (0 | [1-9][0-9]*) frac? exp?`.  The result
`(m, e)` denotes the exact decimal `m * 10 ^ e`. -/
def parseNumber (cs : List Char) : Option ((Int × Int) × List Char) :=
  let (neg, cs1) : Bool × List Char :=
    match cs with
    | '-' :: r => (true, r)
    | _ => (false, cs)
  match cs1 with
  | c :: r =>
    if c == '0' then parseNumberTail neg 0 r
    else if c.isDigit then
      let (ds, r2) := spanDigits r
      parseNumberTail neg (digitsToNat (c.toNat - '0'.toNat) ds) r2
    else none
  | [] => none

/-- Value of a hexadecimal digit, read off its code point (48-57 are the
digits, 97-102 lower-case a-f, 65-70 upper-case A-F). -/
def hexDigitVal (c : Char) : Option Nat :=
  let n := c.toNat
  if 48 ≤ n && n ≤ 57 then some (n - 48)
  else if 97 ≤ n && n ≤ 102 then some (n - 87)
  else if 65 ≤ n && n ≤ 70 then some (n - 55)
  else none

/-- Single-character JSON string escapes. -/
def escChar (e : Char) : Option Char :=
  if e == '"' then some '"'
  else if e == '\\' then some '\\'
  else if e == '/' then some '/'
  else if e == 'b' then some (Char.ofNat 8)
  else if e == 'f' then some (Char.ofNat 12)
  else if e == 'n' then some '\n'
  else if e == 'r' then some '\r'
  else if e == 't' then some '\t'
  else none

/-- Body of a JSON string after the opening quote: the decoded characters and
the input after the closing quote.  `\u` escapes become the code point of the
given code unit (lone surrogates, which JS strings tolerate, fall outside
Lean's `Char` and are approximated by `Char.ofNat`); raw control characters
are a syntax error. -/
def parseStringChars : Nat → List Char → Option (List Char × List Char)
  | 0, _ => none
  | _, [] => none
  | fuel + 1, c :: cs =>
    if c == '"' then some ([], cs)
    else if c == '\\' then
      match cs with
      | e :: cs2 =>
        if e == 'u' then
          match cs2 with
          | h1 :: h2 :: h3 :: h4 :: cs3 =>
            match hexDigitVal h1, hexDigitVal h2, hexDigitVal h3, hexDigitVal h4 with
            | some a, some b, some c2, some d =>
              match parseStringChars fuel cs3 with
              | some (s, r) => some (Char.ofNat (((a * 16 + b) * 16 + c2) * 16 + d) :: s, r)
              | none => none
            | _, _, _, _ => none
          | _ => none
        else
          match escChar e with
          | some ch =>
            match parseStringChars fuel cs2 with
            | some (s, r) => some (ch :: s, r)
            | none => none
          | none => none
      | [] => none
    else if c.toNat < 32 then none
    else
      match parseStringChars fuel cs with
      | some (s, r) => some (c :: s, r)
      | none => none

mutual
/-- Parse one JSON value, returning it and the unconsumed input. -/
def parseValue : Nat → List Char → Option (JsValue × List Char)
  | 0, _ => none
  | fuel + 1, cs =>
    match skipWs cs with
    | [] => none
    | c :: r =>
      if c == '{' then parseObjBody fuel r
      else if c == '[' then parseArrBody fuel r
      else if c == '"' then
        match parseStringChars (r.length + 1) r with
        | some (s, r2) => some (.str (String.mk s), r2)
        | none => none
      else if c == 't' then
        match r with
        | 'r' :: 'u' :: 'e' :: r2 => some (.bool true, r2)
        | _ => none
      else if c == 'f' then
        match r with
        | 'a' :: 'l' :: 's' :: 'e' :: r2 => some (.bool false, r2)
        | _ => none
      else if c == 'n' then
        match r with
        | 'u' :: 'l' :: 'l' :: r2 => some (.null, r2)
        | _ => none
      else if c == '-' || c.isDigit then
        match parseNumber (c :: r) with
        | some ((m, e), r2) => some (.num m e, r2)
        | none => none
      else none

/-- Contents of a JSON object after the opening brace. -/
def parseObjBody : Nat → List Char → Option (JsValue × List Char)
  | 0, _ => none
  | fuel + 1, cs =>
    match skipWs cs with
    | [] => none
    | c :: r =>
      if c == '}' then some (.obj .nil, r)
      else
        match parseMembers fuel (c :: r) with
        | some (o, r2) => some (.obj o, r2)
        | none => none

/-- One or more `"key": value` members, consuming the closing brace. -/
def parseMembers : Nat → List Char → Option (JsObj × List Char)
  | 0, _ => none
  | fuel + 1, cs =>
    match skipWs cs with
    | '"' :: r =>
      match parseStringChars (r.length + 1) r with
      | some (k, r2) =>
        match skipWs r2 with
        | ':' :: r3 =>
          match parseValue fuel r3 with
          | some (v, r4) =>
            match skipWs r4 with
            | ',' :: r5 =>
              match parseMembers fuel r5 with
              | some (tl, r6) => some (.cons (String.mk k) v tl, r6)
              | none => none
            | '}' :: r5 => some (.cons (String.mk k) v .nil, r5)
            | _ => none
          | none => none
        | _ => none
      | none => none
    | _ => none

/-- Contents of a JSON array after the opening bracket. -/
def parseArrBody : Nat → List Char → Option (JsValue × List Char)
  | 0, _ => none
  | fuel + 1, cs =>
    match skipWs cs with
    | [] => none
    | c :: r =>
      if c == ']' then some (.arr .nil, r)
      else
        match parseElems fuel (c :: r) with
        | some (a, r2) => some (.arr a, r2)
        | none => none

/-- One or more array elements, consuming the closing bracket. -/
def parseElems : Nat → List Char → Option (JsArr × List Char)
  | 0, _ => none
  | fuel + 1, cs =>
    match parseValue fuel cs with
    | some (v, r) =>
      match skipWs r with
      | ',' :: r2 =>
        match parseElems fuel r2 with
        | some (tl, r3) => some (.cons v tl, r3)
        | none => none
      | ']' :: r2 => some (.cons v .nil, r2)
      | _ => none
    | none => none
end

/-- Model of `JSON.parse(text)`: `some` the parsed value, `none` where
`JSON.parse` throws a `SyntaxError`.  The fuel `4 * length + 8` dominates the
recursion depth: every unit of fuel is spent inside a chain of at most four
nested calls that together consume at least one input character. -/
def jsonParse (text : String) : Option JsValue :=
  match parseValue (4 * text.data.length + 8) text.data with
  | some (v, rest) => if (skipWs rest).isEmpty then some v else none
  | none => none

/-! ### The session authorization gate

Embeds `options.http.routingController.authorizationChecker` from
src/start-express-app.ts (lines 80-93).  The request's `session` header is an
`Option String` (`none` when the header is absent).  The checker either
returns the parsed session object that it attaches to `action.request.session`
or throws. -/

/-- Failures the authorization checker can throw: `new N9Error(message,
status)` from the explicit throw sites, or the TypeError raised by reading
`.userId` off `null`. -/
inductive AuthFailure : Type where
  | n9Error (message : String) (status : Nat)
  | typeError
  deriving DecidableEq, Repr

/-- Truthiness of the header expression `action.request.headers.session`: an
absent header is `undefined` (falsy) and the empty string is falsy. -/
def headerFalsy : Option String → Bool
  | none => true
  | some s => s == ""

/-- The session gate, translated line by line:
`if (!headers.session) throw new N9Error('session-required', 401);`
`try { session = JSON.parse(headers.session) } catch { throw new N9Error('session-header-is-invalid', 401) }`
`if (!session.userId) throw new N9Error('session-header-has-no-userId', 401);`
`return true;`
The member read `session.userId` sits outside the try block, so a header
parsing to JSON `null` makes that read itself throw a TypeError.  On success
the code returns `true` with the parsed value stored on the request; the model
returns that attached value. -/
def authorizationChecker (sessionHeader : Option String) : Except AuthFailure JsValue :=
  if headerFalsy sessionHeader then .error (.n9Error "session-required" 401)
  else
    match jsonParse (sessionHeader.getD "") with
    | none => .error (.n9Error "session-header-is-invalid" 401)
    | some session =>
      if nullish session then .error .typeError
      else if truthy (jsGet session "userId") then .ok session
      else .error (.n9Error "session-header-has-no-userId" 401)

/-! ### Numeric comparison for `status < 500`

JavaScript evaluates `<` by coercing both operands with `ToNumber`.  The
model covers the operand forms a `JsValue` can take; object and array
coercion (which goes through `ToPrimitive` and string formatting) is
approximated as NaN — no property proved below depends on that corner. -/

/-- Compare two exact decimals `m * 10 ^ e`. -/
def decLt (a b : Int × Int) : Bool :=
  let e := min a.2 b.2
  a.1 * 10 ^ (a.2 - e).toNat < b.1 * 10 ^ (b.2 - e).toNat

/-- ToNumber on a trimmed numeric string: an optional sign followed by a
decimal literal.  `none` stands for NaN. -/
def strToNumber (cs : List Char) : Option (Int × Int) :=
  let (neg, cs1) : Bool × List Char :=
    match cs with
    | '-' :: r => (true, r)
    | '+' :: r => (false, r)
    | _ => (false, cs)
  match cs1 with
  | c :: r =>
    if c.isDigit then
      let (ds, r2) := spanDigits (c :: r)
      match parseNumberTail neg (digitsToNat 0 ds) r2 with
      | some ((m, e), []) => some (m, e)
      | _ => none
    else none
  | [] => none

/-- JavaScript `ToNumber`, restricted to the value forms of this model;
`none` stands for NaN. -/
def toNumber : JsValue → Option (Int × Int)
  | .undefined => none
  | .null => some (0, 0)
  | .bool b => some (if b then 1 else 0, 0)
  | .num m e => some (m, e)
  | .str s =>
    match skipWs s.data with
    | [] => some (0, 0)
    | cs => strToNumber cs
  | .arr _ => none
  | .obj _ => none

/-- JavaScript `a < b` (false whenever either side coerces to NaN). -/
def jsLt (a b : JsValue) : Bool :=
  match toNumber a, toNumber b with
  | some x, some y => decLt x y
  | _, _ => false

/-! ### The error normalization interceptor

Embeds `ErrorHandler.error` from src/middleware/error-handler.interceptor.ts.
The method's observable behaviour is modelled as the ordered list of effects
it performs: the log call issued to the logging collaborator, then
`response.status(...)`, then `response.json(...)`.  Reading `error.status`
off a nullish failure value throws a TypeError before any effect happens. -/

/-- Severity of the log call chosen by `if (status < 500) warn else error`. -/
inductive LogSeverity : Type where
  | warn
  | error
  deriving DecidableEq, Repr

/-- The exception the interceptor itself can raise: the TypeError from a
property read on a nullish failure value. -/
inductive JsException : Type where
  | typeError
  deriving DecidableEq, Repr

/-- One observable step of the interceptor, in program order. -/
inductive Effect : Type where
  | logWrite (sev : LogSeverity) (payload : JsValue)
  | setStatus (v : JsValue)
  | jsonBody (v : JsValue)
  deriving DecidableEq, Repr

/-- `const status = error.status || error.httpCode || 500;` (line 8). -/
def ErrorHandler.computeStatus (err : JsValue) : JsValue :=
  jsOr (jsGet err "status") (jsOr (jsGet err "httpCode") (.num 500 0))

/-- Lines 9-14: `let code = 'unspecified-error'; if (error.name &&
error.name !== 'Error') code = error.name; else if (error.message) code =
error.message;`. -/
def ErrorHandler.computeCode (err : JsValue) : JsValue :=
  if truthy (jsGet err "name") && !(jsGet err "name" == .str "Error") then jsGet err "name"
  else if truthy (jsGet err "message") then jsGet err "message"
  else .str "unspecified-error"

/-- `const context = error.context || error.errors || {};` (line 15). -/
def ErrorHandler.computeContext (err : JsValue) : JsValue :=
  jsOr (jsGet err "context") (jsOr (jsGet err "errors") (.obj .nil))

/-- `if (status < 500) … warn … else … error …` (lines 16-20). -/
def ErrorHandler.severity (err : JsValue) : LogSeverity :=
  if jsLt (ErrorHandler.computeStatus err) (.num 500 0) then .warn else .error

/-- The body passed to `response.json({ code, status, context })`
(lines 23-27), with the fields in source order. -/
def ErrorHandler.responseBody (err : JsValue) : JsValue :=
  .obj (.cons "code" (ErrorHandler.computeCode err)
    (.cons "status" (ErrorHandler.computeStatus err)
      (.cons "context" (ErrorHandler.computeContext err) .nil)))

/-- The interceptor `ErrorHandler.error(error, request, response)` as its
ordered effect trace.  The first statement reads `error.status`, which throws
a TypeError when the failure value is nullish; otherwise the method runs
straight through: it logs the failure, then sets the response status, then
emits the JSON body. -/
def ErrorHandler.error (err : JsValue) : Except JsException (List Effect) :=
  if nullish err then .error .typeError
  else
    .ok [.logWrite (ErrorHandler.severity err) err,
         .setStatus (ErrorHandler.computeStatus err),
         .jsonBody (ErrorHandler.responseBody err)]

/-- The client-visible response extracted from an interceptor run: the value
given to `response.status` and the value given to `response.json`. -/
def ErrorHandler.response (err : JsValue) : Option (JsValue × JsValue) :=
  match ErrorHandler.error err with
  | .ok [.logWrite _ _, .setStatus s, .jsonBody b] => some (s, b)
  | _ => none

/-- The interceptor run against a concrete logging collaborator whose
delivery outcome is `deliver`: the code discards the result of the
`warn`/`error` call, so the outcome is produced but never consumed. -/
def ErrorHandler.runWithLogger (deliver : LogSeverity → JsValue → Bool) (err : JsValue) :
    Except JsException (Bool × JsValue × JsValue) :=
  if nullish err then .error .typeError
  else
    let delivered := deliver (ErrorHandler.severity err) err
    .ok (delivered, ErrorHandler.computeStatus err, ErrorHandler.responseBody err)

/-! ### The routing-controller option merge

Embeds lines 23-32 and 77-97 of src/start-express-app.ts: the defaults
object, the `Object.assign({}, defaults, options.http.routingController)`
merge, and the three unconditional assignments that follow it
(`interceptors`, `authorizationChecker`, `validation`).  Class and function
values carried by the options are opaque to the merge, so they are modelled
as references. -/

/-- Interceptor classes registerable in the options. -/
inductive InterceptorRef : Type where
  | sessionLoaderInterceptor
  | errorHandlerInterceptor
  | custom (n : Nat)
  deriving DecidableEq, Repr

/-- Authorization-checker functions registerable in the options. -/
inductive AuthCheckerRef : Type where
  | sessionGate
  | custom (n : Nat)
  deriving DecidableEq, Repr

/-- One routing-controller option value. -/
inductive ConfigVal : Type where
  | data (v : JsValue)
  | interceptors (l : List InterceptorRef)
  | authChecker (c : AuthCheckerRef)
  deriving DecidableEq, Repr

/-- A JS options object as an ordered association list with distinct keys. -/
abbrev ConfigObj := List (String × ConfigVal)

/-- Property assignment `target[k] = v`: overwrites in place, or appends a
new key at the end, exactly as JS property assignment orders keys. -/
def setKey : ConfigObj → String → ConfigVal → ConfigObj
  | [], k, v => [(k, v)]
  | (k1, v1) :: tl, k, v =>
    if k1 == k then (k, v) :: tl else (k1, v1) :: setKey tl k v

/-- First (and, with distinct keys, only) binding of a key. -/
def getKey : ConfigObj → String → Option ConfigVal
  | [], _ => none
  | (k1, v1) :: tl, k => if k1 == k then some v1 else getKey tl k

/-- `Object.assign(target, src)`: copy every own property of `src` onto
`target`, in order. -/
def objectAssign (target src : ConfigObj) : ConfigObj :=
  src.foldl (fun acc kv => setKey acc kv.1 kv.2) target

/-- The `defaultRoutingControllerOptions` literal (lines 23-32). -/
def defaultRoutingControllerOptions (path : String) : ConfigObj :=
  [("defaults", .data (.obj (.cons "nullResultCode" (.num 404 0)
      (.cons "undefinedResultCode" (.num 204 0) .nil)))),
   ("defaultErrorHandler", .data (.bool false)),
   ("controllers", .data (.arr (.cons (.str (path ++ "/**/*.controller.*s")) .nil)))]

/-- The `validation` object assigned at lines 94-97. -/
def validationOptions : ConfigVal :=
  .data (.obj (.cons "whitelist" (.bool true)
    (.cons "forbidNonWhitelisted" (.bool true) .nil)))

/-- Lines 77-97: `options.http.routingController = Object.assign({},
defaultRoutingControllerOptions, options.http.routingController);` followed by
the unconditional assignments of `interceptors`, `authorizationChecker` and
`validation`. -/
def buildRoutingControllerOptions (path : String) (userOptions : ConfigObj) : ConfigObj :=
  let merged := objectAssign (objectAssign [] (defaultRoutingControllerOptions path)) userOptions
  let withInterceptors := setKey merged "interceptors"
    (.interceptors [.sessionLoaderInterceptor, .errorHandlerInterceptor])
  let withChecker := setKey withInterceptors "authorizationChecker" (.authChecker .sessionGate)
  setKey withChecker "validation" validationOptions

/-! ### Auxiliary instances and lemmas -/

instance {ε α : Type} [DecidableEq ε] [DecidableEq α] : DecidableEq (Except ε α) := fun x y =>
  match x, y with
  | .error a, .error b =>
    if h : a = b then .isTrue (by rw [h]) else .isFalse (by intro hc; cases hc; exact h rfl)
  | .ok a, .ok b =>
    if h : a = b then .isTrue (by rw [h]) else .isFalse (by intro hc; cases hc; exact h rfl)
  | .error _, .ok _ => .isFalse (fun hc => Except.noConfusion hc)
  | .ok _, .error _ => .isFalse (fun hc => Except.noConfusion hc)

/-- Whether a value is a JS object. -/
def isObj : JsValue → Bool
  | .obj _ => true
  | _ => false

/-- A successful object parse yields an `obj` value. -/
theorem parseObjBody_obj (fuel : Nat) (cs : List Char) (v : JsValue) (r : List Char)
    (h : parseObjBody fuel cs = some (v, r)) : ∃ o, v = JsValue.obj o := by
  cases fuel with
  | zero => simp [parseObjBody] at h
  | succ fuel =>
    rw [parseObjBody] at h
    split at h
    · simp at h
    · split at h
      · simp at h
        exact ⟨JsObj.nil, h.1.symm⟩
      · split at h
        · simp at h
          exact ⟨_, h.1.symm⟩
        · simp at h

/-- A successful array parse yields an `arr` value. -/
theorem parseArrBody_arr (fuel : Nat) (cs : List Char) (v : JsValue) (r : List Char)
    (h : parseArrBody fuel cs = some (v, r)) : ∃ a, v = JsValue.arr a := by
  cases fuel with
  | zero => simp [parseArrBody] at h
  | succ fuel =>
    rw [parseArrBody] at h
    split at h
    · simp at h
    · split at h
      · simp at h
        exact ⟨JsArr.nil, h.1.symm⟩
      · split at h
        · simp at h
          exact ⟨_, h.1.symm⟩
        · simp at h

/-- The parser never produces the value `undefined` (no JSON text denotes
it). -/
theorem parseValue_not_undefined (fuel : Nat) (cs : List Char) (v : JsValue) (r : List Char)
    (h : parseValue fuel cs = some (v, r)) : v ≠ JsValue.undefined := by
  intro he
  subst he
  cases fuel with
  | zero => simp [parseValue] at h
  | succ fuel =>
    rw [parseValue] at h
    split at h
    · simp at h
    · repeat' split at h
      all_goals first
        | simp at h
        | (obtain ⟨o, ho⟩ := parseObjBody_obj _ _ _ _ h; simp at ho)
        | (obtain ⟨a, ha⟩ := parseArrBody_arr _ _ _ _ h; simp at ha)

/-- `JSON.parse` never returns `undefined`. -/
theorem jsonParse_not_undefined (s : String) (h : jsonParse s = some JsValue.undefined) :
    False := by
  rw [jsonParse] at h
  split at h
  · split at h
    · rename_i v rest heq _
      simp at h
      exact parseValue_not_undefined _ _ _ _ heq (by rw [h])
    · simp at h
  · simp at h

/-- The empty string is not a JSON text. -/
theorem jsonParse_empty : jsonParse "" = none := by decide

/-- A header whose parse succeeds is neither absent nor empty. -/
theorem headerFalsy_of_parse (s : String) (v : JsValue) (hp : jsonParse s = some v) :
    headerFalsy (some s) = false := by
  cases hb : s == "" with
  | false => simp [headerFalsy, hb]
  | true =>
    have hs : s = "" := eq_of_beq hb
    rw [hs, jsonParse_empty] at hp
    exact Option.noConfusion hp

/-! ### Claim C1 -/

/-- C1 counterexample: the spec's three-way case analysis fails on the code
in two places.  First, an empty-string header does carry a (non-JSON) value,
yet the gate classifies it as `session-required`, not
`session-header-is-invalid`.  Second, the header `"null"` parses as JSON to a
value lacking a truthy `userId`, yet the gate raises a TypeError instead of
the `session-header-has-no-userId` N9Error. -/
theorem c1_counterexample :
    (authorizationChecker (some "") = .error (.n9Error "session-required" 401)
      ∧ jsonParse "" = none
      ∧ AuthFailure.n9Error "session-required" 401 ≠ .n9Error "session-header-is-invalid" 401)
  ∧ (jsonParse "null" = some .null
      ∧ truthy (jsGet .null "userId") = false
      ∧ authorizationChecker (some "null") = .error .typeError
      ∧ AuthFailure.typeError ≠ .n9Error "session-header-has-no-userId" 401) := by decide

/-- C1 (amended): the gate classifies every request by this case analysis:
a falsy session header value — absent or the empty string — fails with
`session-required` (401); otherwise a value that does not parse as JSON fails
with `session-header-is-invalid` (401); otherwise a value parsing to JSON
`null` makes the gate itself throw a TypeError; otherwise a parsed value
lacking a truthy `userId` fails with `session-header-has-no-userId` (401);
otherwise the gate succeeds. -/
theorem c1_amended (header : Option String) :
    (headerFalsy header = true →
      authorizationChecker header = .error (.n9Error "session-required" 401))
  ∧ (∀ s, header = some s → headerFalsy header = false → jsonParse s = none →
      authorizationChecker header = .error (.n9Error "session-header-is-invalid" 401))
  ∧ (∀ s, header = some s → jsonParse s = some .null →
      authorizationChecker header = .error .typeError)
  ∧ (∀ s v, header = some s → jsonParse s = some v → v ≠ .null →
      truthy (jsGet v "userId") = false →
      authorizationChecker header = .error (.n9Error "session-header-has-no-userId" 401))
  ∧ (∀ s v, header = some s → jsonParse s = some v → truthy (jsGet v "userId") = true →
      authorizationChecker header = .ok v) := by
  refine ⟨?_, ?_, ?_, ?_, ?_⟩
  · intro hf
    simp [authorizationChecker, hf]
  · intro s hs hf hp
    subst hs
    simp [authorizationChecker, hf, hp]
  · intro s hs hp
    subst hs
    simp [authorizationChecker, headerFalsy_of_parse s _ hp, hp, nullish]
  · intro s v hs hp hnn huid
    subst hs
    have hnu : v ≠ JsValue.undefined := fun he => jsonParse_not_undefined s (he ▸ hp)
    have hnl : nullish v = false := by
      cases v <;> simp [nullish] <;> first | exact hnn rfl | exact hnu rfl
    simp [authorizationChecker, headerFalsy_of_parse s _ hp, hp, hnl, huid]
  · intro s v hs hp huid
    subst hs
    have hnl : nullish v = false := by
      cases v <;> simp [nullish] <;> simp [jsGet, truthy] at huid
    simp [authorizationChecker, headerFalsy_of_parse s _ hp, hp, hnl, huid]

/-- Witness for C1 (amended): each branch of the case analysis exercised on a
concrete header. -/
theorem c1_amended_witness :
    authorizationChecker none = .error (.n9Error "session-required" 401)
  ∧ authorizationChecker (some "bad") = .error (.n9Error "session-header-is-invalid" 401)
  ∧ authorizationChecker (some "null") = .error .typeError
  ∧ authorizationChecker (some "5") = .error (.n9Error "session-header-has-no-userId" 401)
  ∧ authorizationChecker (some "\x7b\"userId\":1\x7d") =
      .ok (.obj (.cons "userId" (.num 1 0) .nil)) :=
  ⟨(c1_amended none).1 (by decide),
   (c1_amended (some "bad")).2.1 "bad" rfl (by decide) (by decide),
   (c1_amended (some "null")).2.2.1 "null" rfl (by decide),
   (c1_amended (some "5")).2.2.2.1 "5" (.num 5 0) rfl (by decide) (by decide) (by decide),
   (c1_amended (some "\x7b\"userId\":1\x7d")).2.2.2.2 _ _ rfl (by decide) (by decide)⟩

/-! ### Claim C4 -/

/-- C4 counterexample: a present-but-empty session header is rejected with
`session-required`, not with the `session-header-is-invalid` failure the
claim demands. -/
theorem c4_counterexample :
    authorizationChecker (some "") = .error (.n9Error "session-required" 401)
  ∧ AuthFailure.n9Error "session-required" 401 ≠ .n9Error "session-header-is-invalid" 401 := by
  decide

/-- C4 (amended): the empty string is falsy, so a present-but-empty session
header is treated exactly like an absent one: the gate fails with
`SessionRequired` (401, `session-required`) before any JSON parsing. -/
theorem c4_amended :
    authorizationChecker (some "") = authorizationChecker none
  ∧ authorizationChecker (some "") = .error (.n9Error "session-required" 401) := by decide

/-! ### Claim C5 -/

/-- C5 counterexample: the header `"null"` is syntactically valid JSON whose
parsed value lacks a truthy `userId`, yet the gate does not fail with
`session-header-has-no-userId` — it throws a TypeError. -/
theorem c5_counterexample :
    jsonParse "null" = some .null
  ∧ truthy (jsGet JsValue.null "userId") = false
  ∧ authorizationChecker (some "null") ≠ .error (.n9Error "session-header-has-no-userId" 401) := by
  decide

/-- C5 (amended): for every session header that is syntactically valid JSON
whose parsed value is not JSON `null` and lacks a truthy `userId` — including
primitives such as `"5"` and objects declaring `userId: 0` — the gate fails
with `SessionHeaderMissingUserId` (401, `session-header-has-no-userId`); the
check is a truthy check, not a mere presence check.  (A header parsing to
`null` instead makes the gate throw a TypeError.) -/
theorem c5_amended (s : String) (v : JsValue) (hp : jsonParse s = some v)
    (hnn : v ≠ JsValue.null) (huid : truthy (jsGet v "userId") = false) :
    authorizationChecker (some s) = .error (.n9Error "session-header-has-no-userId" 401) :=
  (c1_amended (some s)).2.2.2.1 s v rfl hp hnn huid

/-- Witness for C5 (amended): the primitive header `"5"` (number 5) and an
object declaring `userId: 0` both draw the missing-userId failure. -/
theorem c5_amended_witness :
    authorizationChecker (some "5") = .error (.n9Error "session-header-has-no-userId" 401)
  ∧ authorizationChecker (some "\x7b\"userId\":0\x7d") =
      .error (.n9Error "session-header-has-no-userId" 401) :=
  ⟨c5_amended "5" (.num 5 0) (by decide) (by decide) (by decide),
   c5_amended "\x7b\"userId\":0\x7d" (.obj (.cons "userId" (.num 0 0) .nil))
     (by decide) (by decide) (by decide)⟩

/-! ### Claim C6 -/

/-- C6: for every request whose session header parses to a JSON object with a
truthy `userId`, the gate raises no failure and attaches exactly the parsed
object — every field preserved — as the request's session. -/
theorem c6_valid_session (s : String) (v : JsValue) (hp : jsonParse s = some v)
    (_hobj : isObj v = true) (huid : truthy (jsGet v "userId") = true) :
    authorizationChecker (some s) = .ok v :=
  (c1_amended (some s)).2.2.2.2 s v rfl hp huid

/-- Witness for C6: the session header from the repository's own test
fixture. -/
theorem c6_valid_session_witness :
    authorizationChecker (some "\x7b\"userId\":1,\"name\":\"Bruce Wayne\"\x7d") =
      .ok (.obj (.cons "userId" (.num 1 0) (.cons "name" (.str "Bruce Wayne") .nil))) :=
  c6_valid_session "\x7b\"userId\":1,\"name\":\"Bruce Wayne\"\x7d"
    (.obj (.cons "userId" (.num 1 0) (.cons "name" (.str "Bruce Wayne") .nil)))
    (by decide) (by decide) (by decide)

/-! ### Claim C2 -/

/-- C2 counterexample: a failure declaring only `httpCode: 404` declares no
`status` field, so the claim requires status 500; the interceptor instead
emits status 404 (the `httpCode` fallback). -/
theorem c2_counterexample :
    hasProp (.obj (.cons "httpCode" (.num 404 0) .nil)) "status" = false
  ∧ ErrorHandler.response (.obj (.cons "httpCode" (.num 404 0) .nil)) =
      some (.num 404 0,
        .obj (.cons "code" (.str "unspecified-error")
          (.cons "status" (.num 404 0) (.cons "context" (.obj .nil) .nil))))
  ∧ JsValue.num 404 0 ≠ JsValue.num 500 0 := by decide

/-- C2 (amended): for every (non-nullish) failure, the interceptor emits a
JSON body with fields `code`, `status`, `context` in that order, where
`status` is the first truthy of the failure's `status` and `httpCode` fields,
else 500; `code` is the failure's `name` when truthy and distinct from the
generic `"Error"`, else its truthy `message`, else `"unspecified-error"`; and
`context` is the first truthy of its `context` and `errors` fields, else the
empty object; the HTTP response status equals the computed status. -/
theorem c2_amended (e : JsValue) (h : nullish e = false) :
    ErrorHandler.response e = some
      (ErrorHandler.computeStatus e,
       .obj (.cons "code" (ErrorHandler.computeCode e)
         (.cons "status" (ErrorHandler.computeStatus e)
           (.cons "context" (ErrorHandler.computeContext e) .nil))))
  ∧ ErrorHandler.computeStatus e =
      (if truthy (jsGet e "status") = true then jsGet e "status"
       else if truthy (jsGet e "httpCode") = true then jsGet e "httpCode"
       else .num 500 0)
  ∧ ErrorHandler.computeCode e =
      (if truthy (jsGet e "name") = true ∧ jsGet e "name" ≠ .str "Error" then jsGet e "name"
       else if truthy (jsGet e "message") = true then jsGet e "message"
       else .str "unspecified-error")
  ∧ ErrorHandler.computeContext e =
      (if truthy (jsGet e "context") = true then jsGet e "context"
       else if truthy (jsGet e "errors") = true then jsGet e "errors"
       else .obj .nil) := by
  refine ⟨?_, ?_, ?_, ?_⟩
  · simp [ErrorHandler.response, ErrorHandler.error, h, ErrorHandler.responseBody]
  · simp [ErrorHandler.computeStatus, jsOr]
  · rw [ErrorHandler.computeCode]
    by_cases h1 : truthy (jsGet e "name") = true
    · by_cases h2 : jsGet e "name" = .str "Error"
      · simp [h1, h2]
      · simp [h1, h2]
    · simp [h1]
  · simp [ErrorHandler.computeContext, jsOr]

/-- Witness for C2 (amended): a validation-style failure carrying `status`,
a generic `name`, a `message` and an `errors` list. -/
theorem c2_amended_witness :
    ErrorHandler.response
      (.obj (.cons "status" (.num 400 0) (.cons "name" (.str "Error")
        (.cons "message" (.str "bad-payload")
          (.cons "errors" (.arr (.cons (.str "e1") .nil)) .nil))))) =
      some (.num 400 0,
        .obj (.cons "code" (.str "bad-payload")
          (.cons "status" (.num 400 0)
            (.cons "context" (.arr (.cons (.str "e1") .nil)) .nil)))) := by
  have h := c2_amended
    (.obj (.cons "status" (.num 400 0) (.cons "name" (.str "Error")
      (.cons "message" (.str "bad-payload")
        (.cons "errors" (.arr (.cons (.str "e1") .nil)) .nil)))))
    (by decide)
  rw [h.1]
  rw [show ErrorHandler.computeStatus _ = JsValue.num 400 0 from by decide,
      show ErrorHandler.computeCode _ = JsValue.str "bad-payload" from by decide,
      show ErrorHandler.computeContext _ = JsValue.arr (.cons (.str "e1") .nil) from by decide]

/-! ### Claim C3 -/

/-- C3 counterexample: a `null` failure value makes the interceptor itself
throw (reading `error.status` off `null` is a TypeError), so no response is
emitted — the claim's never-throws guarantee fails for non-object failures. -/
theorem c3_counterexample :
    ErrorHandler.error .null = .error .typeError
  ∧ ErrorHandler.response .null = none := by decide

/-- C3 (amended): for every failure value other than `null` and `undefined` —
including malformed non-object primitives — the interceptor completes and
emits a response, and for a non-object failure it falls back to status 500,
code `"unspecified-error"`, context `{}`; a nullish failure instead makes the
interceptor itself throw a TypeError. -/
theorem c3_amended (e : JsValue) (h : nullish e = false) :
    (ErrorHandler.error e).isOk = true
  ∧ (isObj e = false →
      ErrorHandler.response e = some (.num 500 0,
        .obj (.cons "code" (.str "unspecified-error")
          (.cons "status" (.num 500 0) (.cons "context" (.obj .nil) .nil))))) := by
  constructor
  · simp [ErrorHandler.error, h, Except.isOk, Except.toBool]
  · intro hobj
    have hg : ∀ k, jsGet e k = .undefined := by
      intro k
      cases e <;> simp_all [jsGet, isObj, nullish]
    have hst : ErrorHandler.computeStatus e = .num 500 0 := by
      simp [ErrorHandler.computeStatus, hg, jsOr, truthy]
    have hcd : ErrorHandler.computeCode e = .str "unspecified-error" := by
      simp [ErrorHandler.computeCode, hg, truthy]
    have hcx : ErrorHandler.computeContext e = .obj .nil := by
      simp [ErrorHandler.computeContext, hg, jsOr, truthy]
    simp [ErrorHandler.response, ErrorHandler.error, h, ErrorHandler.responseBody,
      hst, hcd, hcx]

/-- Witness for C3 (amended): the primitive failure value 5. -/
theorem c3_amended_witness :
    (ErrorHandler.error (.num 5 0)).isOk = true
  ∧ ErrorHandler.response (.num 5 0) = some (.num 500 0,
      .obj (.cons "code" (.str "unspecified-error")
        (.cons "status" (.num 500 0) (.cons "context" (.obj .nil) .nil)))) :=
  ⟨(c3_amended (.num 5 0) (by decide)).1,
   (c3_amended (.num 5 0) (by decide)).2 (by decide)⟩

/-! ### Claim C7 -/

/-- C7: for every failure whose computed status is an integer m — including
failures with no declared status, for which m defaults to 500 — the
interceptor logs at warning severity exactly when m < 500, and at error
severity otherwise, before setting the response status to m. -/
theorem c7_log_severity (e : JsValue) (m : Int) (h1 : nullish e = false)
    (h2 : ErrorHandler.computeStatus e = .num m 0) :
    ErrorHandler.error e = .ok
      [.logWrite (if m < 500 then .warn else .error) e,
       .setStatus (.num m 0),
       .jsonBody (ErrorHandler.responseBody e)] := by
  have hsev : ErrorHandler.severity e = (if m < 500 then LogSeverity.warn else .error) := by
    rw [ErrorHandler.severity, h2]
    by_cases hm : m < 500
    · rw [if_pos hm]
      simp [jsLt, toNumber, decLt, hm]
    · rw [if_neg hm]
      simp [jsLt, toNumber, decLt, hm]
  simp [ErrorHandler.error, h1, hsev, h2]

/-- Witness for C7: a declared 404 draws a warning-severity log, a failure
with no declared status defaults to 500 and draws an error-severity log. -/
theorem c7_log_severity_witness :
    ErrorHandler.error (.obj (.cons "status" (.num 404 0) .nil)) = .ok
      [.logWrite .warn (.obj (.cons "status" (.num 404 0) .nil)),
       .setStatus (.num 404 0),
       .jsonBody (ErrorHandler.responseBody (.obj (.cons "status" (.num 404 0) .nil)))]
  ∧ ErrorHandler.error (.obj .nil) = .ok
      [.logWrite .error (.obj .nil),
       .setStatus (.num 500 0),
       .jsonBody (ErrorHandler.responseBody (.obj .nil))] := by
  constructor
  · have h := c7_log_severity (.obj (.cons "status" (.num 404 0) .nil)) 404
      (by decide) (by decide)
    rwa [if_pos (by decide : (404 : Int) < 500)] at h
  · have h := c7_log_severity (.obj .nil) 500 (by decide) (by decide)
    rwa [if_neg (by decide : ¬ (500 : Int) < 500)] at h

/-! ### Claim C8 -/

/-- C8: the interceptor's effect trace computes the status and body as pure
functions of the failure alone, issues the log write, and only then emits the
precomputed response; running against any two logging collaborators — one of
which may fail to deliver — yields identical client-visible responses,
because the log call's outcome is never consumed. -/
theorem c8_response_independent_of_log (e : JsValue)
    (d1 d2 : LogSeverity → JsValue → Bool) (h : nullish e = false) :
    ErrorHandler.error e = .ok
      [.logWrite (ErrorHandler.severity e) e,
       .setStatus (ErrorHandler.computeStatus e),
       .jsonBody (ErrorHandler.responseBody e)]
  ∧ (ErrorHandler.runWithLogger d1 e).map Prod.snd =
      .ok (ErrorHandler.computeStatus e, ErrorHandler.responseBody e)
  ∧ (ErrorHandler.runWithLogger d1 e).map Prod.snd =
      (ErrorHandler.runWithLogger d2 e).map Prod.snd := by
  refine ⟨?_, ?_, ?_⟩ <;> simp [ErrorHandler.error, ErrorHandler.runWithLogger, h, Except.map]

/-- Witness for C8: a failing and a succeeding logging collaborator produce
the same response for a concrete 401 failure. -/
theorem c8_response_independent_of_log_witness :
    (ErrorHandler.runWithLogger (fun _ _ => false)
        (.obj (.cons "status" (.num 401 0) .nil))).map Prod.snd =
      (ErrorHandler.runWithLogger (fun _ _ => true)
        (.obj (.cons "status" (.num 401 0) .nil))).map Prod.snd :=
  (c8_response_independent_of_log (.obj (.cons "status" (.num 401 0) .nil))
    (fun _ _ => false) (fun _ _ => true) (by decide)).2.2

/-! ### Claim C10 -/

/-- Reading a field an object does not declare yields `undefined`. -/
theorem jsGet_of_not_hasProp (e : JsValue) (k : String) (h : hasProp e k = false) :
    jsGet e k = .undefined := by
  cases e <;> try rfl
  case obj fields =>
    rw [hasProp] at h
    rw [jsGet]
    cases hp : JsObj.getProp fields k with
    | none => rfl
    | some w => rw [hp] at h; simp at h

/-- C10: the response status falls back in the order `status`, `httpCode`,
500: a failure with no `status` field but a truthy `httpCode` gets `httpCode`
as its response status; a falsy declared `status` (such as 0) is likewise
skipped in favor of the next fallback; and the emitted response carries
exactly this computed status. -/
theorem c10_status_fallback (e : JsValue) (h : nullish e = false) :
    (hasProp e "status" = false → truthy (jsGet e "httpCode") = true →
      ErrorHandler.computeStatus e = jsGet e "httpCode")
  ∧ (truthy (jsGet e "status") = false → truthy (jsGet e "httpCode") = true →
      ErrorHandler.computeStatus e = jsGet e "httpCode")
  ∧ (truthy (jsGet e "status") = false → truthy (jsGet e "httpCode") = false →
      ErrorHandler.computeStatus e = .num 500 0)
  ∧ (truthy (jsGet e "status") = true →
      ErrorHandler.computeStatus e = jsGet e "status")
  ∧ ErrorHandler.response e =
      some (ErrorHandler.computeStatus e, ErrorHandler.responseBody e) := by
  refine ⟨?_, ?_, ?_, ?_, ?_⟩
  · intro h1 h2
    have hu := jsGet_of_not_hasProp e "status" h1
    simp only [ErrorHandler.computeStatus, jsOr, hu, h2]
    simp [truthy]
  · intro h1 h2
    simp only [ErrorHandler.computeStatus, jsOr, h1, h2]
    simp
  · intro h1 h2
    simp only [ErrorHandler.computeStatus, jsOr, h1, h2]
    simp
  · intro h1
    simp only [ErrorHandler.computeStatus, jsOr, h1]
    simp
  · simp [ErrorHandler.response, ErrorHandler.error, h, ErrorHandler.responseBody]

/-- Witness for C10: a falsy declared status 0 is skipped in favor of a
declared `httpCode` 404, and a failure with only `httpCode` 418 uses it. -/
theorem c10_status_fallback_witness :
    ErrorHandler.computeStatus
        (.obj (.cons "status" (.num 0 0) (.cons "httpCode" (.num 404 0) .nil))) =
      jsGet (.obj (.cons "status" (.num 0 0) (.cons "httpCode" (.num 404 0) .nil))) "httpCode"
  ∧ ErrorHandler.computeStatus (.obj (.cons "httpCode" (.num 418 0) .nil)) =
      jsGet (.obj (.cons "httpCode" (.num 418 0) .nil)) "httpCode" :=
  ⟨(c10_status_fallback (.obj (.cons "status" (.num 0 0) (.cons "httpCode" (.num 404 0) .nil)))
      (by decide)).2.1 (by decide) (by decide),
   (c10_status_fallback (.obj (.cons "httpCode" (.num 418 0) .nil))
      (by decide)).1 (by decide) (by decide)⟩

/-! ### Claim C9 -/

/-- Assigning a key makes it readable. -/
theorem getKey_setKey_self (l : ConfigObj) (k : String) (v : ConfigVal) :
    getKey (setKey l k v) k = some v := by
  induction l with
  | nil => simp [setKey, getKey]
  | cons hd tl ih =>
    rw [setKey]
    cases hb : hd.1 == k with
    | true => simp [getKey]
    | false => simp [getKey, hb, ih]

/-- Assigning one key leaves every other key unchanged. -/
theorem getKey_setKey_other (l : ConfigObj) (k1 k2 : String) (v : ConfigVal)
    (h : k1 ≠ k2) : getKey (setKey l k1 v) k2 = getKey l k2 := by
  induction l with
  | nil => simp [setKey, getKey, h]
  | cons hd tl ih =>
    rw [setKey]
    cases hb : hd.1 == k1 with
    | true =>
      have : hd.1 = k1 := eq_of_beq hb
      simp [getKey, h, this]
    | false => simp [getKey, hb, ih]

/-- Keys untouched by a copy keep the target's binding. -/
theorem getKey_objectAssign_not_mem (t : ConfigObj) (u : ConfigObj) (k : String)
    (h : k ∉ u.map Prod.fst) : getKey (objectAssign t u) k = getKey t k := by
  induction u generalizing t with
  | nil => rfl
  | cons hd tl ih =>
    rw [show objectAssign t (hd :: tl) = objectAssign (setKey t hd.1 hd.2) tl from rfl]
    rw [List.map_cons] at h
    have h1 : k ≠ hd.1 := fun he => h (he ▸ List.mem_cons_self _ _)
    have h2 : k ∉ tl.map Prod.fst := fun hm => h (List.mem_cons_of_mem _ hm)
    rw [ih _ h2]
    exact getKey_setKey_other t hd.1 k hd.2 (fun he => h1 he.symm)

/-- A copied binding is readable afterwards, provided the source object's
keys are distinct (as a JS object's own keys are). -/
theorem getKey_objectAssign_mem (t : ConfigObj) (u : ConfigObj) (k : String) (v : ConfigVal)
    (hnd : (u.map Prod.fst).Nodup) (h : (k, v) ∈ u) :
    getKey (objectAssign t u) k = some v := by
  induction u generalizing t with
  | nil => simp at h
  | cons hd tl ih =>
    rw [show objectAssign t (hd :: tl) = objectAssign (setKey t hd.1 hd.2) tl from rfl]
    rw [List.map_cons, List.nodup_cons] at hnd
    rcases List.mem_cons.mp h with he | htl
    · subst he
      rw [getKey_objectAssign_not_mem _ _ _ hnd.1]
      exact getKey_setKey_self t k v
    · exact ih _ hnd.2 htl

/-- C9 counterexample: contrary to the claim, `interceptors` and
`authorizationChecker` are not the only caller-supplied routing-controller
fields that are discarded — a caller-supplied `validation` is silently
replaced by the whitelist options as well. -/
theorem c9_counterexample :
    getKey (buildRoutingControllerOptions "/p" [("validation", .data (.num 7 0))])
      "validation" = some validationOptions
  ∧ validationOptions ≠ .data (.num 7 0) := by decide

/-- C9 (amended): for every options object, the routing-controller
configuration actually used sets the interceptor list to exactly
[SessionLoaderInterceptor, ErrorHandler], the authorization checker to the
session gate, and `validation` to the whitelist options, after the defaults
merge; caller-supplied `interceptors`, `authorizationChecker` or `validation`
are silently discarded, while every other routing-controller field supplied
by the caller survives the merge. -/
theorem c9_amended (path : String) (user : ConfigObj)
    (hnd : (user.map Prod.fst).Nodup) :
    getKey (buildRoutingControllerOptions path user) "interceptors" =
      some (.interceptors [.sessionLoaderInterceptor, .errorHandlerInterceptor])
  ∧ getKey (buildRoutingControllerOptions path user) "authorizationChecker" =
      some (.authChecker .sessionGate)
  ∧ getKey (buildRoutingControllerOptions path user) "validation" = some validationOptions
  ∧ ∀ k v, (k, v) ∈ user → k ≠ "interceptors" → k ≠ "authorizationChecker" →
      k ≠ "validation" → getKey (buildRoutingControllerOptions path user) k = some v := by
  refine ⟨?_, ?_, ?_, ?_⟩
  · rw [buildRoutingControllerOptions]
    rw [getKey_setKey_other _ _ _ _ (by decide)]
    rw [getKey_setKey_other _ _ _ _ (by decide)]
    exact getKey_setKey_self _ _ _
  · rw [buildRoutingControllerOptions]
    rw [getKey_setKey_other _ _ _ _ (by decide)]
    exact getKey_setKey_self _ _ _
  · rw [buildRoutingControllerOptions]
    exact getKey_setKey_self _ _ _
  · intro k v hm h1 h2 h3
    rw [buildRoutingControllerOptions]
    rw [getKey_setKey_other _ _ _ _ (fun he => h3 he.symm)]
    rw [getKey_setKey_other _ _ _ _ (fun he => h2 he.symm)]
    rw [getKey_setKey_other _ _ _ _ (fun he => h1 he.symm)]
    exact getKey_objectAssign_mem _ _ _ _ hnd hm

/-- Witness for C9 (amended): a caller setting `middlewares` and
`classTransformer` keeps both, while the forced keys are what the code
installs. -/
theorem c9_amended_witness :
    getKey (buildRoutingControllerOptions "/app"
        [("middlewares", .data (.num 3 0)), ("classTransformer", .data (.bool true))])
      "interceptors" =
      some (.interceptors [.sessionLoaderInterceptor, .errorHandlerInterceptor])
  ∧ getKey (buildRoutingControllerOptions "/app"
        [("middlewares", .data (.num 3 0)), ("classTransformer", .data (.bool true))])
      "authorizationChecker" = some (.authChecker .sessionGate)
  ∧ getKey (buildRoutingControllerOptions "/app"
        [("middlewares", .data (.num 3 0)), ("classTransformer", .data (.bool true))])
      "middlewares" = some (.data (.num 3 0)) :=
  ⟨(c9_amended "/app" _ (by decide)).1,
   (c9_amended "/app" _ (by decide)).2.1,
   (c9_amended "/app" _ (by decide)).2.2.2 "middlewares" (.data (.num 3 0))
     (by decide) (by decide) (by decide) (by decide)⟩
